import Mathlib

/-!
Shallow embedding of the repository's three source files:
* `BottomNav` (src/unnamed/part_000): session-dependent navigation link,
* `Profile` (src/src/pages/Profile.tsx): profile query, update mutation,
  delete handlers, form payloads and avatar/cover rendering,
* `Places` (src/src/pages/Places.tsx): places query and card rendering.

JavaScript truthiness of optional string fields is modelled by `truthy`;
`Partial<Profile>` payloads distinguish an absent field (`none`) from a field
present with value `null` (`some none`). UI side effects (toasts, dialog
state, query invalidation) are modelled as explicit effect lists.
-/

namespace ValeOFC

/-- Truthiness of an optional string field exactly as JavaScript evaluates it
in a conditional: `null`/`undefined` and the empty string are falsy. -/
def truthy : Option String → Bool
  | some s => s != ""
  | none => false

/-! ### BottomNav (src/unnamed/part_000) -/

/-- An auth session. Only its presence matters to `BottomNav`. -/
structure Session where
  userId : String
deriving Repr, DecidableEq

/-- Component state of `BottomNav`: the held session value
(`useState<any>(null)` initialised to `null`). -/
structure NavState where
  session : Option Session
deriving Repr, DecidableEq

/-- `BottomNav` on mount, before `getSession` resolves: `useState(null)`. -/
def mountBottomNav : NavState := { session := none }

/-- The `onAuthStateChange` callback (also the `getSession().then` callback):
`setSession(session)` replaces the held session value. -/
def onAuthStateChange (st : NavState) (newSession : Option Session) : NavState :=
  { st with session := newSession }

/-- Target of the "Eu" link: `to={session ? "/perfil" : "/login"}`. -/
def profileLinkTarget (session : Option Session) : String :=
  if session.isSome then "/perfil" else "/login"

/-! ### Profile data model (src/src/pages/Profile.tsx) -/

/-- The `Profile` interface (all fields optional except `id`). -/
structure ProfileRow where
  id : String
  username : Option String := none
  full_name : Option String := none
  avatar_url : Option String := none
  cover_url : Option String := none
  created_at : Option String := none
  updated_at : Option String := none
  theme_preference : Option String := none
deriving Repr, DecidableEq

/-- A `Partial<Profile>` update payload. Outer `none` = field absent from the
payload; `some none` = field present with value `null`. -/
structure ProfileUpdate where
  id : Option String := none
  username : Option (Option String) := none
  full_name : Option (Option String) := none
  avatar_url : Option (Option String) := none
  cover_url : Option (Option String) := none
  created_at : Option (Option String) := none
  updated_at : Option (Option String) := none
  theme_preference : Option (Option String) := none
deriving Repr, DecidableEq

/-- A `{ data, error }` response from the row store. -/
structure StoreResponse (α : Type) where
  data : Option α
  error : Option String
deriving Repr, DecidableEq

/-- The select request a query function issues against the row store. -/
structure SelectRequest where
  table : String
  filterCol : String
  filterVal : String
  single : Bool
deriving Repr, DecidableEq

/-- The update request `updateProfile` issues against the row store. -/
structure UpdateRequest where
  table : String
  payload : ProfileUpdate
  filterCol : String
  filterVal : String
deriving Repr, DecidableEq

/-- The select issued by the profile query once a user is known:
`.from("profiles").select("*").eq("id", user.id).single()`. -/
def profileSelectRequest (uid : String) : SelectRequest :=
  { table := "profiles", filterCol := "id", filterVal := uid, single := true }

/-- The profile `queryFn`: throws `"No user found"` when there is no
authenticated user; otherwise issues the single-row select and resolves with
whatever the response's `data` field holds, never inspecting `error`. -/
def profileQueryFn (user : Option String) (resp : StoreResponse ProfileRow) :
    Except String (SelectRequest × Option ProfileRow) :=
  match user with
  | none => .error "No user found"
  | some uid => .ok (profileSelectRequest uid, resp.data)

/-! ### updateProfile mutation and its effects -/

/-- A UI side effect observable during the Profile page's handlers. -/
inductive Effect where
  | invalidateQuery (key : String)
  | toast (title : String) (description : String)
  | setPhotoDialogOpen (isOpen : Bool)
  | setDeleteDialogOpen (isOpen : Bool)
  | setFormValue (field : String) (value : Option String)
  | mutateCall (payload : ProfileUpdate)
deriving Repr, DecidableEq

/-- The update request built by `updateProfile`'s `mutationFn`:
`.from("profiles").update(values).eq("id", user.id)`. -/
def updateProfileRequest (uid : String) (values : ProfileUpdate) : UpdateRequest :=
  { table := "profiles", payload := values, filterCol := "id", filterVal := uid }

/-- `updateProfile.mutationFn`: throws `"No user found"` without a user,
throws the row-store error when one is returned, otherwise succeeds having
issued the id-restricted update request. -/
def updateProfileMutationFn (user : Option String) (values : ProfileUpdate)
    (backendError : Option String) : Except String UpdateRequest :=
  match user with
  | none => .error "No user found"
  | some uid =>
      match backendError with
      | some e => .error e
      | none => .ok (updateProfileRequest uid values)

/-- `updateProfile`'s `onSuccess` handler: invalidate the `["profile"]`
query, toast success, close the photo dialog. -/
def updateProfileOnSuccess : List Effect :=
  [ .invalidateQuery "profile",
    .toast "Perfil atualizado" "Suas alterações foram salvas com sucesso",
    .setPhotoDialogOpen false ]

/-- Full mutation lifecycle: the `mutationFn` outcome paired with the effects
the mutation emits (the source registers no `onError` handler, so a failed
mutation emits nothing). -/
def runUpdateProfile (user : Option String) (values : ProfileUpdate)
    (backendError : Option String) : Except String UpdateRequest × List Effect :=
  match updateProfileMutationFn user values backendError with
  | .ok req => (.ok req, updateProfileOnSuccess)
  | .error e => (.error e, [])

/-! ### Delete handlers and form payloads -/

/-- Payload of `updateProfile.mutate({ avatar_url: null })`. -/
def deleteAvatarPayload : ProfileUpdate := { avatar_url := some none }

/-- Payload of `updateProfile.mutate({ cover_url: null })`. -/
def deleteCoverPayload : ProfileUpdate := { cover_url := some none }

/-- Synchronous effects of `handleDeleteAvatar`, in source order:
`form.setValue`, fire-and-forget `mutate`, close the delete dialog, toast. -/
def handleDeleteAvatarSync : List Effect :=
  [ .setFormValue "avatar_url" none,
    .mutateCall deleteAvatarPayload,
    .setDeleteDialogOpen false,
    .toast "Foto de perfil removida" "Sua foto de perfil foi removida com sucesso" ]

/-- Synchronous effects of `handleDeleteCover`, in source order. -/
def handleDeleteCoverSync : List Effect :=
  [ .setFormValue "cover_url" none,
    .mutateCall deleteCoverPayload,
    .setDeleteDialogOpen false,
    .toast "Foto de capa removida" "Sua foto de capa foi removida com sucesso" ]

/-- Full observable trace of `handleDeleteAvatar`: its synchronous effects
followed by whatever the mutation emits when it later resolves. -/
def handleDeleteAvatarTrace (user : Option String) (backendError : Option String) :
    List Effect :=
  handleDeleteAvatarSync ++ (runUpdateProfile user deleteAvatarPayload backendError).2

/-- Full observable trace of `handleDeleteCover`. -/
def handleDeleteCoverTrace (user : Option String) (backendError : Option String) :
    List Effect :=
  handleDeleteCoverSync ++ (runUpdateProfile user deleteCoverPayload backendError).2

/-- Payload of the edit form's submit: `updateProfile.mutate(form.getValues())`.
`form.reset(profile)` filled every field, so every field is present. -/
def formValuesPayload (formState : ProfileRow) : ProfileUpdate :=
  { id := some formState.id,
    username := some formState.username,
    full_name := some formState.full_name,
    avatar_url := some formState.avatar_url,
    cover_url := some formState.cover_url,
    created_at := some formState.created_at,
    updated_at := some formState.updated_at,
    theme_preference := some formState.theme_preference }

/-- Payload of the photo dialog's save button:
`updateProfile.mutate({ avatar_url: ..., cover_url: ... })` — always both. -/
def photoDialogPayload (formState : ProfileRow) : ProfileUpdate :=
  { avatar_url := some formState.avatar_url,
    cover_url := some formState.cover_url }

/-! ### Profile page avatar/cover rendering -/

/-- The rendered image slot: either an `<img>` with an `onError` fallback
source, or the textual placeholder `<div>`. -/
inductive ImageRender where
  | img (src : String) (onErrorFallback : String)
  | placeholderText (text : String)
deriving Repr, DecidableEq

def defaultAvatarImage : String := "/placeholder.svg"

def defaultCoverImage : String := "/placeholder.svg"

/-- Avatar slot: `profile?.avatar_url ? <img src=... onError→placeholder.svg>
: <div>Sem foto de perfil</div>`. -/
def renderAvatar (profile : Option ProfileRow) : ImageRender :=
  match profile with
  | some p =>
      if truthy p.avatar_url then .img (p.avatar_url.getD "") defaultAvatarImage
      else .placeholderText "Sem foto de perfil"
  | none => .placeholderText "Sem foto de perfil"

/-- Cover slot: `profile?.cover_url ? <img ...> : <div>Sem Capa de Perfil</div>`. -/
def renderCover (profile : Option ProfileRow) : ImageRender :=
  match profile with
  | some p =>
      if truthy p.cover_url then .img (p.cover_url.getD "") defaultCoverImage
      else .placeholderText "Sem Capa de Perfil"
  | none => .placeholderText "Sem Capa de Perfil"

/-! ### Places (src/src/pages/Places.tsx) -/

/-- The nested `social_media` object (`null` when absent on the row). -/
structure SocialMedia where
  facebook : Option String := none
  instagram : Option String := none
deriving Repr, DecidableEq

/-- A row of the `places` collection. -/
structure Place where
  id : String
  name : String
  description : Option String := none
  address : Option String := none
  owner_name : Option String := none
  opening_hours : Option String := none
  entrance_fee : Option String := none
  phone : Option String := none
  whatsapp : Option String := none
  website : Option String := none
  social_media : Option SocialMedia := none
  maps_url : Option String := none
  image : Option String := none
deriving Repr, DecidableEq

/-- A contact affordance rendered on a place card, with its `href`. -/
inductive Affordance where
  | phone (href : String)
  | whatsapp (href : String)
  | website (href : String)
  | facebook (href : String)
  | instagram (href : String)
  | maps (href : String)
deriving Repr, DecidableEq

/-- The kind of an affordance, forgetting the `href`. -/
inductive AffKind where
  | phone
  | whatsapp
  | website
  | facebook
  | instagram
  | maps
deriving Repr, DecidableEq

def Affordance.kind : Affordance → AffKind
  | .phone _ => .phone
  | .whatsapp _ => .whatsapp
  | .website _ => .website
  | .facebook _ => .facebook
  | .instagram _ => .instagram
  | .maps _ => .maps

/-- `whatsapp.replace(/\D/g, '')`: keep only the decimal digits. -/
def stripNonDigits (s : String) : String :=
  String.mk (s.toList.filter Char.isDigit)

def phoneAffordance (p : Place) : List Affordance :=
  if truthy p.phone then [.phone ("tel:" ++ p.phone.getD "")] else []

def whatsappAffordance (p : Place) : List Affordance :=
  if truthy p.whatsapp
  then [.whatsapp ("https://wa.me/" ++ stripNonDigits (p.whatsapp.getD ""))]
  else []

def websiteAffordance (p : Place) : List Affordance :=
  if truthy p.website then [.website (p.website.getD "")] else []

/-- `place.social_media && (...).facebook && ...`: an object is truthy, so the
subfields are checked exactly when `social_media` is non-null. -/
def socialAffordances (p : Place) : List Affordance :=
  match p.social_media with
  | some sm =>
      (if truthy sm.facebook then [Affordance.facebook (sm.facebook.getD "")] else []) ++
      (if truthy sm.instagram then [Affordance.instagram (sm.instagram.getD "")] else [])
  | none => []

def mapsAffordance (p : Place) : List Affordance :=
  if truthy p.maps_url then [.maps (p.maps_url.getD "")] else []

/-- All contact affordances of one card, in source order. -/
def cardAffordances (p : Place) : List Affordance :=
  phoneAffordance p ++ whatsappAffordance p ++ websiteAffordance p ++
    socialAffordances p ++ mapsAffordance p

/-- Whether the card for `p` shows an affordance of kind `k`. -/
def showsAffordance (p : Place) (k : AffKind) : Bool :=
  (cardAffordances p).any (fun a => a.kind == k)

/-- Truthiness of a subfield of the optional `social_media` object. -/
def socialFieldTruthy (o : Option SocialMedia) (f : SocialMedia → Option String) : Bool :=
  match o with
  | some sm => truthy (f sm)
  | none => false

/-- A rendered place card (the parts the claims are about). -/
structure PlaceCard where
  name : String
  affordances : List Affordance
deriving Repr, DecidableEq

def renderCard (p : Place) : PlaceCard :=
  { name := p.name, affordances := cardAffordances p }

/-- Order on places used by `.order("name")`: ascending by `name`. -/
def placeNameLE (a b : Place) : Prop := a.name ≤ b.name

instance : DecidableRel placeNameLE := fun a b =>
  inferInstanceAs (Decidable (a.name ≤ b.name))

instance : IsTotal Place placeNameLE := ⟨fun a b => le_total a.name b.name⟩

instance : IsTrans Place placeNameLE := ⟨fun _ _ _ => le_trans⟩

/-- The row store executing `.select("*").order("name")`: all rows, sorted
ascending by `name`. -/
def selectAllOrderedByName (rows : List Place) : List Place :=
  List.insertionSort placeNameLE rows

/-- The places `queryFn`: `if (error) throw error; return data`. -/
def placesQueryFn (rows : List Place) (backendError : Option String) :
    Except String (List Place) :=
  match backendError with
  | some e => .error e
  | none => .ok (selectAllOrderedByName rows)

/-- The query state the cache layer exposes to the Places view. -/
structure QueryState (α : Type) where
  isLoading : Bool
  data : Option α
deriving Repr, DecidableEq

/-- What the Places page body renders: the source has exactly two branches,
a spinner while loading and the card grid otherwise (no error branch). -/
inductive PlacesView where
  | spinner
  | grid (cards : List PlaceCard)
deriving Repr, DecidableEq

/-- `isLoading ? <spinner> : <grid>{places?.map(card)}</grid>`; an absent
`data` renders an empty grid. -/
def renderPlacesPage (qs : QueryState (List Place)) : PlacesView :=
  if qs.isLoading then .spinner
  else .grid ((qs.data.getD []).map renderCard)

/-! ## Claims -/

/-- C1: for every session value the "Eu" link targets `/perfil` when the
session is present and `/login` when it is absent, and an auth-state-change
notification replaces the held session so the same link's target updates
accordingly without a reload. -/
theorem bottom_nav_profile_link (st : NavState) (newSession : Option Session) :
    (∀ s, st.session = some s → profileLinkTarget st.session = "/perfil") ∧
    (st.session = none → profileLinkTarget st.session = "/login") ∧
    (onAuthStateChange st newSession).session = newSession ∧
    (newSession = none →
      profileLinkTarget (onAuthStateChange st newSession).session = "/login") ∧
    (∀ s, newSession = some s →
      profileLinkTarget (onAuthStateChange st newSession).session = "/perfil") := by
  refine ⟨fun s h => ?_, fun h => ?_, rfl, fun h => ?_, fun s h => ?_⟩ <;>
    simp [profileLinkTarget, onAuthStateChange, h]

/-- Witness for C1: a mounted nav with no session links to `/login`; after a
login event delivers a session, the link targets `/perfil`. -/
theorem bottom_nav_profile_link_witness :
    profileLinkTarget mountBottomNav.session = "/login" ∧
    profileLinkTarget
      (onAuthStateChange mountBottomNav (some { userId := "u1" })).session = "/perfil" :=
  ⟨(bottom_nav_profile_link mountBottomNav none).2.1 rfl,
   (bottom_nav_profile_link mountBottomNav (some { userId := "u1" })).2.2.2.2 _ rfl⟩

/-- C6: the profile query function throws exactly when there is no
authenticated user; otherwise it selects the single `profiles` row whose `id`
equals the authenticated user's id. -/
theorem fetch_profile_requires_auth (user : Option String) (resp : StoreResponse ProfileRow) :
    ((∃ e, profileQueryFn user resp = .error e) ↔ user = none) ∧
    (∀ uid, user = some uid →
      profileQueryFn user resp = .ok (profileSelectRequest uid, resp.data) ∧
      (profileSelectRequest uid).table = "profiles" ∧
      (profileSelectRequest uid).filterCol = "id" ∧
      (profileSelectRequest uid).filterVal = uid ∧
      (profileSelectRequest uid).single = true) := by
  cases user with
  | none => exact ⟨⟨fun _ => rfl, fun _ => ⟨"No user found", rfl⟩⟩, by simp⟩
  | some uid0 =>
    refine ⟨⟨?_, by simp⟩, ?_⟩
    · rintro ⟨e, he⟩
      exact absurd he (by simp [profileQueryFn])
    · rintro uid h
      obtain rfl : uid0 = uid := by simpa using h
      exact ⟨rfl, rfl, rfl, rfl, rfl⟩

/-- Witness for C6: with user `u1` the query resolves to the single-row
select on `profiles` filtered by `id = u1`. -/
theorem fetch_profile_requires_auth_witness :
    profileQueryFn (some "u1") { data := none, error := none } =
      .ok (profileSelectRequest "u1", none) ∧
    (profileSelectRequest "u1").filterVal = "u1" :=
  ⟨((fetch_profile_requires_auth (some "u1") { data := none, error := none }).2 "u1" rfl).1,
   ((fetch_profile_requires_auth (some "u1") { data := none, error := none }).2 "u1" rfl).2.2.2.1⟩

/-- C10: once the user check passes, the profile query function never inspects
the row store's `error` and resolves successfully with whatever the `data`
field holds — in particular with `none` (empty profile) when the select
failed or matched no row. -/
theorem profile_query_ignores_store_error (uid : String) (resp : StoreResponse ProfileRow)
    (e : String) :
    profileQueryFn (some uid) resp = .ok (profileSelectRequest uid, resp.data) ∧
    profileQueryFn (some uid) { data := resp.data, error := some e } =
      profileQueryFn (some uid) { data := resp.data, error := none } ∧
    profileQueryFn (some uid) { data := none, error := some e } =
      .ok (profileSelectRequest uid, none) :=
  ⟨rfl, rfl, rfl⟩

/-- C9: both delete handlers emit their success toast and close the delete
dialog synchronously at call time — the toast and the dialog close sit in the
synchronous prefix of the trace, before any mutation-resolution effect — and
they appear in the trace for every backend outcome, including failures. -/
theorem delete_handlers_toast_unconditionally (user : Option String)
    (backendError : Option String) :
    handleDeleteAvatarTrace user backendError =
      handleDeleteAvatarSync ++ (runUpdateProfile user deleteAvatarPayload backendError).2 ∧
    Effect.toast "Foto de perfil removida" "Sua foto de perfil foi removida com sucesso"
      ∈ handleDeleteAvatarSync ∧
    Effect.setDeleteDialogOpen false ∈ handleDeleteAvatarSync ∧
    Effect.toast "Foto de perfil removida" "Sua foto de perfil foi removida com sucesso"
      ∈ handleDeleteAvatarTrace user backendError ∧
    handleDeleteCoverTrace user backendError =
      handleDeleteCoverSync ++ (runUpdateProfile user deleteCoverPayload backendError).2 ∧
    Effect.toast "Foto de capa removida" "Sua foto de capa foi removida com sucesso"
      ∈ handleDeleteCoverSync ∧
    Effect.setDeleteDialogOpen false ∈ handleDeleteCoverSync ∧
    Effect.toast "Foto de capa removida" "Sua foto de capa foi removida com sucesso"
      ∈ handleDeleteCoverTrace user backendError := by
  refine ⟨rfl, ?_, ?_, ?_, rfl, ?_, ?_, ?_⟩ <;>
    simp [handleDeleteAvatarSync, handleDeleteCoverSync,
      handleDeleteAvatarTrace, handleDeleteCoverTrace]

/-- C3: `updateProfile` fails without an authenticated user; the update it
issues is restricted to the `profiles` row whose `id` equals the
authenticated user's id and carries exactly the given payload; and it
invalidates the cached `["profile"]` query and emits the success toast
exactly when the mutation succeeds. -/
theorem update_profile_contract (user : Option String) (values : ProfileUpdate)
    (backendError : Option String) :
    (user = none → (runUpdateProfile user values backendError).1 = .error "No user found") ∧
    (∀ uid req, user = some uid → (runUpdateProfile user values backendError).1 = .ok req →
      req.table = "profiles" ∧ req.filterCol = "id" ∧ req.filterVal = uid ∧
      req.payload = values) ∧
    ((Effect.invalidateQuery "profile" ∈ (runUpdateProfile user values backendError).2 ∧
      Effect.toast "Perfil atualizado" "Suas alterações foram salvas com sucesso"
        ∈ (runUpdateProfile user values backendError).2)
      ↔ (user ≠ none ∧ backendError = none)) := by
  cases user with
  | none =>
    refine ⟨fun _ => rfl, fun uid req h => absurd h (by simp), ?_⟩
    simp [runUpdateProfile, updateProfileMutationFn]
  | some uid0 =>
    cases backendError with
    | none =>
      refine ⟨fun h => by simp at h, ?_, ?_⟩
      · rintro uid req h hok
        have huid : uid = uid0 := by simpa using h.symm
        subst huid
        obtain rfl : updateProfileRequest uid values = req := by
          simpa [runUpdateProfile, updateProfileMutationFn] using hok
        exact ⟨rfl, rfl, rfl, rfl⟩
      · simp [runUpdateProfile, updateProfileMutationFn, updateProfileOnSuccess]
    | some e =>
      refine ⟨fun h => by simp at h, ?_, ?_⟩
      · rintro uid req h hok
        exact absurd hok (by simp [runUpdateProfile, updateProfileMutationFn])
      · simp [runUpdateProfile, updateProfileMutationFn]

/-- Witness for C3: a successful username update as user `u1` issues the
id-restricted request and emits the invalidation and the toast. -/
theorem update_profile_contract_witness :
    ((updateProfileRequest "u1" { username := some (some "newname") }).table = "profiles" ∧
     (updateProfileRequest "u1" { username := some (some "newname") }).filterVal = "u1") ∧
    (Effect.invalidateQuery "profile"
        ∈ (runUpdateProfile (some "u1") { username := some (some "newname") } none).2 ∧
     Effect.toast "Perfil atualizado" "Suas alterações foram salvas com sucesso"
        ∈ (runUpdateProfile (some "u1") { username := some (some "newname") } none).2) := by
  have h := update_profile_contract (some "u1") { username := some (some "newname") } none
  have h2 := h.2.1 "u1" (updateProfileRequest "u1" { username := some (some "newname") })
    rfl rfl
  exact ⟨⟨h2.1, h2.2.2.1⟩, h.2.2.mpr ⟨by simp, rfl⟩⟩

/-- C8: the places query function throws exactly the row-store error when one
is returned and resolves with the data otherwise; the page renders the
spinner exactly while loading, otherwise the card grid — and for a failed
fetch (not loading, no data) it renders an empty grid, not a distinct error
view. -/
theorem places_fetch_error_handling (rows : List Place) (backendError : Option String)
    (qs : QueryState (List Place)) :
    (∀ e, backendError = some e → placesQueryFn rows backendError = .error e) ∧
    (backendError = none →
      placesQueryFn rows backendError = .ok (selectAllOrderedByName rows)) ∧
    (qs.isLoading = true → renderPlacesPage qs = .spinner) ∧
    (qs.isLoading = false →
      renderPlacesPage qs = .grid ((qs.data.getD []).map renderCard)) ∧
    renderPlacesPage { isLoading := false, data := none } = .grid [] ∧
    renderPlacesPage { isLoading := false, data := none } ≠ .spinner := by
  refine ⟨?_, ?_, ?_, ?_, rfl, by simp [renderPlacesPage]⟩
  · rintro e rfl; rfl
  · rintro rfl; rfl
  · intro h; simp [renderPlacesPage, h]
  · intro h; simp [renderPlacesPage, h]

/-- Witness for C8: a concrete failing fetch throws, a loading state renders
the spinner, and the errored state renders the empty grid. -/
theorem places_fetch_error_handling_witness :
    placesQueryFn [] (some "boom") = .error "boom" ∧
    renderPlacesPage { isLoading := true, data := none } = .spinner ∧
    renderPlacesPage { isLoading := false, data := none } = .grid [] := by
  have h := places_fetch_error_handling [] (some "boom")
    { isLoading := true, data := none }
  exact ⟨h.1 "boom" rfl, h.2.2.1 rfl, h.2.2.2.2.1⟩

/-! Helper lemmas used for C4: the contribution of each conditional fragment
of the card to the kind test. -/

theorem phoneAffordance_any (p : Place) (k : AffKind) :
    (phoneAffordance p).any (fun a => a.kind == k) =
      (truthy p.phone && (AffKind.phone == k)) := by
  cases hb : truthy p.phone <;> simp [phoneAffordance, hb, Affordance.kind]

theorem whatsappAffordance_any (p : Place) (k : AffKind) :
    (whatsappAffordance p).any (fun a => a.kind == k) =
      (truthy p.whatsapp && (AffKind.whatsapp == k)) := by
  cases hb : truthy p.whatsapp <;> simp [whatsappAffordance, hb, Affordance.kind]

theorem websiteAffordance_any (p : Place) (k : AffKind) :
    (websiteAffordance p).any (fun a => a.kind == k) =
      (truthy p.website && (AffKind.website == k)) := by
  cases hb : truthy p.website <;> simp [websiteAffordance, hb, Affordance.kind]

theorem mapsAffordance_any (p : Place) (k : AffKind) :
    (mapsAffordance p).any (fun a => a.kind == k) =
      (truthy p.maps_url && (AffKind.maps == k)) := by
  cases hb : truthy p.maps_url <;> simp [mapsAffordance, hb, Affordance.kind]

theorem socialAffordances_any (p : Place) (k : AffKind) :
    (socialAffordances p).any (fun a => a.kind == k) =
      ((socialFieldTruthy p.social_media SocialMedia.facebook && (AffKind.facebook == k)) ||
       (socialFieldTruthy p.social_media SocialMedia.instagram && (AffKind.instagram == k))) := by
  cases hsm : p.social_media with
  | none => simp [socialAffordances, socialFieldTruthy, hsm]
  | some sm =>
      cases hf : truthy sm.facebook <;> cases hi : truthy sm.instagram <;>
        simp [socialAffordances, socialFieldTruthy, hsm, hf, hi, Affordance.kind]

/-- C4: a place card shows each of the six contact affordances exactly when
the corresponding field of the record is non-empty; for facebook/instagram,
when the `social_media` object is present and its subfield is non-empty. -/
theorem place_card_affordances_iff (p : Place) :
    showsAffordance p .phone = truthy p.phone ∧
    showsAffordance p .whatsapp = truthy p.whatsapp ∧
    showsAffordance p .website = truthy p.website ∧
    showsAffordance p .facebook = socialFieldTruthy p.social_media SocialMedia.facebook ∧
    showsAffordance p .instagram = socialFieldTruthy p.social_media SocialMedia.instagram ∧
    showsAffordance p .maps = truthy p.maps_url := by
  refine ⟨?_, ?_, ?_, ?_, ?_, ?_⟩ <;>
  · simp only [showsAffordance, cardAffordances, List.any_append, phoneAffordance_any,
      whatsappAffordance_any, websiteAffordance_any, socialAffordances_any,
      mapsAffordance_any]
    cases h1 : truthy p.phone <;> cases h2 : truthy p.whatsapp <;>
      cases h3 : truthy p.website <;>
      cases h4 : socialFieldTruthy p.social_media SocialMedia.facebook <;>
      cases h5 : socialFieldTruthy p.social_media SocialMedia.instagram <;>
      cases h6 : truthy p.maps_url <;> rfl

/-- C5: the places fetch selects all rows (the fetched list is a permutation
of the collection) and the rendered card list is in ascending order of the
`name` field. -/
theorem places_rendered_sorted_by_name (rows : List Place) :
    placesQueryFn rows none = .ok (selectAllOrderedByName rows) ∧
    (selectAllOrderedByName rows).Perm rows ∧
    renderPlacesPage { isLoading := false, data := some (selectAllOrderedByName rows) }
      = .grid ((selectAllOrderedByName rows).map renderCard) ∧
    (((selectAllOrderedByName rows).map renderCard).map PlaceCard.name).Sorted (· ≤ ·) := by
  refine ⟨rfl, List.perm_insertionSort placeNameLE rows, rfl, ?_⟩
  rw [List.map_map]
  exact (List.sorted_insertionSort placeNameLE rows).map _ (fun a b h => h)

/-- A profile whose avatar and cover URLs are empty, as after deletion. -/
def profileNoPhotos : ProfileRow := { id := "u1" }

/-- C2 counterexample: with an empty `avatar_url` (and `cover_url`) the
Profile page renders the textual placeholder `<div>`, not an `<img>` whose
source is the placeholder image `/placeholder.svg`; that image is only the
`onError` fallback of a rendered image. -/
theorem avatar_placeholder_counterexample :
    renderAvatar (some profileNoPhotos) = .placeholderText "Sem foto de perfil" ∧
    renderAvatar (some profileNoPhotos) ≠ .img defaultAvatarImage defaultAvatarImage ∧
    renderCover (some profileNoPhotos) = .placeholderText "Sem Capa de Perfil" ∧
    renderCover (some profileNoPhotos) ≠ .img defaultCoverImage defaultCoverImage := by
  refine ⟨rfl, ?_, rfl, ?_⟩ <;> simp [renderAvatar, renderCover, profileNoPhotos, truthy]

/-- The state after deleting only the avatar: the cover URL is still set. -/
def profileAvatarDeleted : ProfileRow :=
  { id := "u1", cover_url := some "http://x.example/c.png" }

/-- The state after deleting only the cover: the avatar URL is still set. -/
def profileCoverDeleted : ProfileRow :=
  { id := "u1", avatar_url := some "http://x.example/a.png" }

/-- C2 (amended): deleting the avatar (resp. cover) issues, through
`updateProfile`, a partial update whose `avatar_url` (resp. `cover_url`)
field is present and null; and every profile state whose `avatar_url` is
empty — independently, every profile state whose `cover_url` is empty —
renders the textual placeholder in that slot rather than the prior URL, in
particular never an `<img>` with the prior URL as source. The two empty-field
hypotheses gate only their own slot's conclusions. -/
theorem delete_photo_then_placeholder (p q : ProfileRow) (user : Option String)
    (backendError : Option String) (priorUrl fb : String)
    (ha : truthy p.avatar_url = false) (hc : truthy q.cover_url = false) :
    deleteAvatarPayload.avatar_url = some none ∧
    Effect.mutateCall deleteAvatarPayload ∈ handleDeleteAvatarTrace user backendError ∧
    deleteCoverPayload.cover_url = some none ∧
    Effect.mutateCall deleteCoverPayload ∈ handleDeleteCoverTrace user backendError ∧
    renderAvatar (some p) = .placeholderText "Sem foto de perfil" ∧
    renderAvatar (some p) ≠ .img priorUrl fb ∧
    renderCover (some q) = .placeholderText "Sem Capa de Perfil" ∧
    renderCover (some q) ≠ .img priorUrl fb := by
  refine ⟨rfl, ?_, rfl, ?_, ?_, ?_, ?_, ?_⟩ <;>
    simp [handleDeleteAvatarTrace, handleDeleteCoverTrace, handleDeleteAvatarSync,
      handleDeleteCoverSync, renderAvatar, renderCover, ha, hc]

/-- Witness for the amended C2 at the normal post-delete states: an empty
avatar with the cover still set renders the avatar placeholder, and an empty
cover with the avatar still set renders the cover placeholder. -/
theorem delete_photo_then_placeholder_witness :
    truthy profileAvatarDeleted.avatar_url = false ∧
    truthy profileCoverDeleted.cover_url = false ∧
    renderAvatar (some profileAvatarDeleted) = .placeholderText "Sem foto de perfil" ∧
    renderCover (some profileCoverDeleted) = .placeholderText "Sem Capa de Perfil" :=
  ⟨rfl, rfl,
   (delete_photo_then_placeholder profileAvatarDeleted profileCoverDeleted none none
      "http://old.example/a.png" defaultAvatarImage rfl rfl).2.2.2.2.1,
   (delete_photo_then_placeholder profileAvatarDeleted profileCoverDeleted none none
      "http://old.example/a.png" defaultAvatarImage rfl rfl).2.2.2.2.2.2.1⟩

/-- The form state the edit form holds after `form.reset(profile)`. -/
def formInitial : ProfileRow :=
  { id := "u1", username := some "olduser", full_name := some "Alice",
    avatar_url := some "http://x.example/a.png" }

/-- The form state after the user edits only the username field. -/
def formEdited : ProfileRow := { formInitial with username := some "newuser" }

/-- C7 counterexample: the user changes only `username`, yet the edit form's
submit payload (`form.getValues()`) carries the unchanged `full_name` and
`avatar_url` fields, and the photo dialog's payload always carries
`cover_url` even when only the avatar was changed. -/
theorem edit_form_sends_unchanged_fields :
    formEdited.full_name = formInitial.full_name ∧
    formEdited.avatar_url = formInitial.avatar_url ∧
    (formValuesPayload formEdited).full_name = some (some "Alice") ∧
    (formValuesPayload formEdited).avatar_url = some (some "http://x.example/a.png") ∧
    (photoDialogPayload formEdited).cover_url = some none := by
  exact ⟨rfl, rfl, rfl, rfl, rfl⟩

/-- C7 (amended): the mutation payloads are `Partial<Profile>` values but not
minimal — only the delete handlers send a single field; the edit form's
submit sends every form field, changed or not, and the photo dialog's save
always sends both `avatar_url` and `cover_url`. -/
theorem profile_update_payload_shapes (fs : ProfileRow) :
    (deleteAvatarPayload.avatar_url = some none ∧ deleteAvatarPayload.id = none ∧
     deleteAvatarPayload.username = none ∧ deleteAvatarPayload.full_name = none ∧
     deleteAvatarPayload.cover_url = none ∧ deleteAvatarPayload.created_at = none ∧
     deleteAvatarPayload.updated_at = none ∧ deleteAvatarPayload.theme_preference = none) ∧
    (deleteCoverPayload.cover_url = some none ∧ deleteCoverPayload.avatar_url = none ∧
     deleteCoverPayload.username = none ∧ deleteCoverPayload.full_name = none) ∧
    ((formValuesPayload fs).id = some fs.id ∧
     (formValuesPayload fs).username = some fs.username ∧
     (formValuesPayload fs).full_name = some fs.full_name ∧
     (formValuesPayload fs).avatar_url = some fs.avatar_url ∧
     (formValuesPayload fs).cover_url = some fs.cover_url ∧
     (formValuesPayload fs).created_at = some fs.created_at ∧
     (formValuesPayload fs).updated_at = some fs.updated_at ∧
     (formValuesPayload fs).theme_preference = some fs.theme_preference) ∧
    ((photoDialogPayload fs).avatar_url = some fs.avatar_url ∧
     (photoDialogPayload fs).cover_url = some fs.cover_url ∧
     (photoDialogPayload fs).username = none) :=
  ⟨⟨rfl, rfl, rfl, rfl, rfl, rfl, rfl, rfl⟩, ⟨rfl, rfl, rfl, rfl⟩,
   ⟨rfl, rfl, rfl, rfl, rfl, rfl, rfl, rfl⟩, ⟨rfl, rfl, rfl⟩⟩

end ValeOFC
